import Mathlib

/-!
Verification development for the AMIRA therapy-bot core.

This file gives a shallow embedding of the session-management core of the
repository (src/core/session_manager.py, src/core/letting_go.py,
src/bot/handlers.py, src/data/models.py) and proves or refutes the frozen
specification claims about it.

Modelling conventions:
- Python datetimes are modelled as Nat timestamps (seconds); durations are
  Nat differences.  Numeric string formatting inside summary strings is
  abstracted to decimal Nat printing (the claims never inspect those digits).
- Python dicts with a fixed key set are modelled as structures; a key that
  may be absent is an Option field.
- MongoDB insert_one is modelled as appending to a list of documents; the
  returned ObjectId is modelled as the index of the inserted document, which
  is fresh on every insert, exactly like an ObjectId.
- External services (the Gemini emotion analyzer and text generator) are
  modelled as oracle function arguments; a failing or timed-out call is the
  oracle returning none.
- Python string operations lower/strip/substring-in are re-implemented
  character-wise below so that they compute by kernel reduction.
-/

/-- ASCII lowering of one character, as Python str.lower does on ASCII. -/
def lowerChar (c : Char) : Char :=
  if 'A' ≤ c ∧ c ≤ 'Z' then Char.ofNat (c.toNat + 32) else c

/-- Model of Python str.lower (ASCII range; the emotion words and
classification labels compared in the source are all ASCII). -/
def lowerStr (s : String) : String := String.mk (s.data.map lowerChar)

/-- Whitespace test for trimStr. -/
def wsChar (c : Char) : Bool := c = ' ' || c = '\t' || c = '\n' || c = '\r'

/-- Model of Python str.strip. -/
def trimStr (s : String) : String :=
  String.mk (((s.data.dropWhile wsChar).reverse.dropWhile wsChar).reverse)

/-- Infix test on character lists. -/
def isInfixOfL : List Char → List Char → Bool
  | pat, [] => pat.isEmpty
  | pat, l@(_ :: rest) => pat.isPrefixOf l || isInfixOfL pat rest

/-- Model of the Python substring test (pat in text). -/
def isSubstr (pat text : String) : Bool := isInfixOfL pat.data text.data

/-- Emotion analysis result dict; the source only ever reads the
primary_emotion key, which may be absent. -/
structure EmotionAnalysis where
  primary_emotion : Option String
  deriving DecidableEq

/-- Metadata dict attached to an Interaction (data/models.py Interaction;
session_manager.add_interaction stores session_id and user_id and no
technique key, while letting_go.track_progress reads a technique key). -/
structure InteractionMetadata where
  session_id : Option String
  user_id : Option Nat
  technique : Option String
  deriving DecidableEq

/-- One conversational exchange (data/models.py, class Interaction). -/
structure Interaction where
  timestamp : Nat
  user_message : String
  bot_response : String
  emotion_analysis : EmotionAnalysis
  metadata : InteractionMetadata
  deriving DecidableEq

/-- The in-memory session dict built by SessionManager.start_session:
top-level keys patient_id, start_time, interactions, session_id, and the
metadata sub-dict with condition_classifications, emotional_states and
techniques_used; end_time and summary are absent until end_session sets
them (modelled as Option none). -/
structure SessionData where
  patient_id : Nat
  start_time : Nat
  session_id : String
  interactions : List Interaction
  condition_classifications : List String
  emotional_states : List String
  techniques_used : List String
  end_time : Option Nat
  summary : Option String
  deriving DecidableEq

/-- SessionManager.start_session (src/core/session_manager.py lines 38-61):
unconditionally builds a fresh session dict; there is no check for an
already-open session and no failure path. -/
def start_session (patient_id : Nat) (now : Nat) : SessionData :=
  { patient_id := patient_id
    start_time := now
    session_id := toString now
    interactions := []
    condition_classifications := []
    emotional_states := []
    techniques_used := []
    end_time := none
    summary := none }

/-- The session-open step of bot/handlers.py start_handler (lines 126-130):
whatever session the user context currently holds, it is overwritten with
the result of an unconditional start_session call. -/
def start_handler_open (_current : Option SessionData) (patient_id now : Nat) :
    SessionData :=
  start_session patient_id now

/-- Outcome type used to compare the code behaviour against the spec
wording for the open operation. -/
inductive OpenResult where
  | conflictError
  | opened (s : SessionData)
  deriving DecidableEq

/-- Spec-side definition, following the spec words for the open operation:
fails with ConflictError if an open Session already exists for the patient,
otherwise creates one.  Used only to state the divergence from the code. -/
def open_per_spec (openSessionExists : Bool) (patient_id now : Nat) : OpenResult :=
  if openSessionExists then OpenResult.conflictError
  else OpenResult.opened (start_session patient_id now)

/-- The last-5 slice interactions[-5:] used by
SessionManager.classify_psychological_condition as context. -/
def recentSlice (l : List Interaction) : List Interaction :=
  l.drop (l.length - 5)

/-- User messages of the last five interactions (line 348 of
session_manager.py). -/
def recentUserMessages (l : List Interaction) : List String :=
  (recentSlice l).map (fun i => i.user_message)

/-- Emotion analyses of the last five interactions (line 349). -/
def recentEmotionAnalyses (l : List Interaction) : List EmotionAnalysis :=
  (recentSlice l).map (fun i => i.emotion_analysis)

/-- The fixed classification enum accepted by the source (line 377). -/
def valid_classifications : List String :=
  ["depression", "anxiety", "bipolar", "ocd", "adjustment_disorder", "ptsd",
   "general_stress", "unclear"]

/-- SessionManager.classify_psychological_condition (lines 332-385).
The generative model call is the oracle argument; an oracle answer of none
models the call raising or timing out, in which case the try/except block
returns None.  A received response is stripped, lowered and validated
against the enum, defaulting to unclear. -/
def classify_psychological_condition (s : SessionData)
    (model : List String → List EmotionAnalysis → Option String) : Option String :=
  if s.interactions.length < 3 then none
  else
    match model (recentUserMessages s.interactions) (recentEmotionAnalyses s.interactions) with
    | none => none
    | some text =>
      let classification := lowerStr (trimStr text)
      if classification ∈ valid_classifications then some classification
      else some "unclear"

/-- The classification step of SessionManager.add_interaction
(lines 130-134): every time the post-append ledger length is a multiple of
5, a classification is requested, and a non-None result is appended to the
condition_classifications list.  The source guard is truthiness of the
returned string; classify_psychological_condition never returns an empty
string, so Option matching is an exact model. -/
def maybe_classify (s : SessionData)
    (model : List String → List EmotionAnalysis → Option String) : SessionData :=
  if s.interactions.length % 5 = 0 then
    match classify_psychological_condition s model with
    | some c => { s with condition_classifications := s.condition_classifications ++ [c] }
    | none => s
  else s

/-- The ledger-update part of SessionManager.add_interaction (lines
107-128): resolve the emotion analysis (calling the analyzer when the
caller passed none), build the Interaction with a server-assigned
timestamp and a metadata dict holding session_id and user_id (and no
technique key), append it, and record the primary emotion in the
session-level emotional_states list when present. -/
def append_interaction (s : SessionData) (user_message bot_response : String)
    (emotion_analysis : Option EmotionAnalysis)
    (analyzer : String → EmotionAnalysis) (now : Nat) : SessionData :=
  let ea := match emotion_analysis with
    | some ea => ea
    | none => analyzer user_message
  let interaction : Interaction :=
    { timestamp := now
      user_message := user_message
      bot_response := bot_response
      emotion_analysis := ea
      metadata := { session_id := some s.session_id, user_id := some s.patient_id,
                    technique := none } }
  let s1 := { s with interactions := s.interactions ++ [interaction] }
  match ea.primary_emotion with
  | some e => { s1 with emotional_states := s1.emotional_states ++ [e] }
  | none => s1

/-- SessionManager.add_interaction (lines 95-136): append, then the
every-5th classification step. -/
def add_interaction (s : SessionData) (user_message bot_response : String)
    (emotion_analysis : Option EmotionAnalysis)
    (analyzer : String → EmotionAnalysis)
    (model : List String → List EmotionAnalysis → Option String)
    (now : Nat) : SessionData :=
  maybe_classify (append_interaction s user_message bot_response emotion_analysis analyzer now) model

/-- Progress metrics dict returned by LettingGoTechnique.track_progress. -/
structure ProgressMetrics where
  technique_used_count : Nat
  progress_percentage : Nat
  technique : String
  deriving DecidableEq

/-- The counting loop of LettingGoTechnique.track_progress (lines
130-135): interactions whose metadata technique entry equals letting_go. -/
def lettingGoCount (interactions : List Interaction) : Nat :=
  (interactions.filter (fun i => i.metadata.technique == some "letting_go")).length

/-- LettingGoTechnique.track_progress (src/core/letting_go.py lines
117-144).  The patient argument is accepted and ignored, as in the
source. -/
def track_progress (_patient_data : Nat) (session_interactions : List Interaction) :
    ProgressMetrics :=
  let letting_go_count := lettingGoCount session_interactions
  { technique_used_count := letting_go_count
    progress_percentage := min 100 (letting_go_count * 10)
    technique := "letting_go" }

/-- Positive emotion list of the source (session_manager.py line 241). -/
def positive_emotions : List String :=
  ["joy", "happiness", "excitement", "gratitude", "contentment", "hope"]

/-- Negative emotion list of the source (session_manager.py line 242).
Note that it differs from the negative set named in the spec: it contains
frustration, guilt and shame and does not contain disgust or stress. -/
def negative_emotions : List String :=
  ["sadness", "anger", "fear", "anxiety", "frustration", "guilt", "shame"]

/-- Emotional valence block of calculate_session_metrics (lines 238-256):
positive, negative and neutral fractions of the emotional_states list.
Only evaluated when the list is nonempty, so the divisions are by a
positive count. -/
def emotionalTrendShares (emotional_states : List String) : ℚ × ℚ × ℚ :=
  let positive_count := (emotional_states.filter (fun e => positive_emotions.contains (lowerStr e))).length
  let negative_count := (emotional_states.filter (fun e => negative_emotions.contains (lowerStr e))).length
  let total_count := emotional_states.length
  let p : ℚ := (positive_count : ℚ) / (total_count : ℚ)
  let n : ℚ := (negative_count : ℚ) / (total_count : ℚ)
  (p, n, 1 - (p + n))

/-- Consecutive timestamp differences (lines 262-266). -/
def responseTimes (interactions : List Interaction) : List Int :=
  List.zipWith (fun a b => (b.timestamp : Int) - (a.timestamp : Int))
    interactions interactions.tail

/-- User message lengths (line 272). -/
def userMessageLengths (interactions : List Interaction) : List Nat :=
  interactions.map (fun i => i.user_message.length)

/-- Engagement trend block of calculate_session_metrics (lines 276-284):
compare the mean user-message length of the first half of the ledger with
the second half; the source emits increasing or decreasing and nothing
else, and emits no value at all when either half is empty. -/
def engagementTrend (interactions : List Interaction) : Option String :=
  let lens := userMessageLengths interactions
  let first_half := lens.take (lens.length / 2)
  let second_half := lens.drop (lens.length / 2)
  if first_half ≠ [] ∧ second_half ≠ [] then
    let first_half_avg : ℚ := ((first_half.map (fun x => (x : ℚ))).sum) / (first_half.length : ℚ)
    let second_half_avg : ℚ := ((second_half.map (fun x => (x : ℚ))).sum) / (second_half.length : ℚ)
    some (if second_half_avg > first_half_avg then "increasing" else "decreasing")
  else none

/-- Ordered tally bump, preserving first-seen key order like a Python
dict. -/
def bumpCount : List (String × Nat) → String → List (String × Nat)
  | [], e => [(e, 1)]
  | (k, c) :: rest, e =>
    if k == e then (k, c + 1) :: rest else (k, c) :: bumpCount rest e

/-- Frequency tally in first-seen order (technique_counts of lines 289-291
and emotion_counts of lines 193-199). -/
def countOccurrences (l : List String) : List (String × Nat) :=
  l.foldl bumpCount []

/-- Stable descending insertion by count, matching Python sorted with
reverse equal to True (stable, so equal counts keep first-seen order). -/
def insertByCountDesc (p : String × Nat) : List (String × Nat) → List (String × Nat)
  | [] => [p]
  | q :: rest => if q.2 < p.2 then p :: q :: rest else q :: insertByCountDesc p rest

/-- Stable sort by descending count (lines 202 and 414). -/
def sortByCountDesc (l : List (String × Nat)) : List (String × Nat) :=
  l.foldl (fun acc p => insertByCountDesc p acc) []

/-- Per-technique improved/total counters (lines 311-321). -/
structure EffStats where
  improved : Nat
  total : Nat
  deriving DecidableEq

/-- Ordered-dict update for the technique_effectiveness accumulation:
bump total, and improved when the emotion improved, creating the entry on
first use like the source dict setdefault pattern. -/
def updateEff (acc : List (String × EffStats)) (t : String) (improvedFlag : Bool) :
    List (String × EffStats) :=
  match acc with
  | [] => [(t, { improved := if improvedFlag then 1 else 0, total := 1 })]
  | (k, st) :: rest =>
    if k == t then
      (k, { improved := st.improved + (if improvedFlag then 1 else 0),
            total := st.total + 1 }) :: rest
    else (k, st) :: updateEff rest t improvedFlag

/-- Loop body for index i of the effectiveness loop (lines 299-321): the
emotion transition from position i-1 to position i is attributed to the
technique recorded at position i-1; entries with an empty-string emotion
are skipped by the source truthiness test. -/
def effStep (ts es : List String) (acc : List (String × EffStats)) (i : Nat) :
    List (String × EffStats) :=
  match ts[i-1]?, es[i-1]?, es[i]? with
  | some technique, some prev_emotion, some curr_emotion =>
    if prev_emotion ≠ "" ∧ curr_emotion ≠ "" then
      let prev_is_negative := negative_emotions.contains (lowerStr prev_emotion)
      let curr_is_negative := negative_emotions.contains (lowerStr curr_emotion)
      updateEff acc technique (prev_is_negative && !curr_is_negative)
    else acc
  | _, _, _ => acc

/-- The technique-effectiveness loop of calculate_session_metrics (lines
296-321), iterating i over range(1, len(techniques_used)). -/
def techniqueEffectivenessRaw (techniques_used emotional_states : List String) :
    List (String × EffStats) :=
  (List.range' 1 (techniques_used.length - 1)).foldl
    (effStep techniques_used emotional_states) []

/-- Final per-technique record after the percentage pass. -/
structure EffStatsP where
  improved : Nat
  total : Nat
  effectiveness_percentage : Option ℚ
  deriving DecidableEq

/-- Percentage pass of lines 323-326: every entry with a positive total
gets improved / total * 100. -/
def addEffectivenessPercentages (l : List (String × EffStats)) :
    List (String × EffStatsP) :=
  l.map (fun p =>
    (p.1, { improved := p.2.improved, total := p.2.total,
            effectiveness_percentage :=
              if 0 < p.2.total then
                some ((p.2.improved : ℚ) / (p.2.total : ℚ) * 100)
              else none }))

/-- The metrics dict assembled by SessionManager.calculate_session_metrics;
conditionally-set keys are Option fields. -/
structure Metrics where
  interaction_count : Nat
  session_duration : Nat
  emotional_states : List String
  techniques_used : List String
  condition_classifications : List String
  emotional_trend : Option (ℚ × ℚ × ℚ)
  average_response_time : Option ℚ
  average_message_length : Option ℚ
  engagement_trend : Option String
  technique_usage : Option (List (String × Nat))
  technique_effectiveness : Option (List (String × EffStatsP))
  deriving DecidableEq

/-- SessionManager.calculate_session_metrics (lines 220-330). -/
def calculate_session_metrics (s : SessionData) (now : Nat) : Metrics :=
  let interactions := s.interactions
  let emo_states := s.emotional_states
  let techniques := s.techniques_used
  let rts := responseTimes interactions
  let lens := userMessageLengths interactions
  { interaction_count := interactions.length
    session_duration := now - s.start_time
    emotional_states := emo_states
    techniques_used := techniques
    condition_classifications := s.condition_classifications
    emotional_trend :=
      if emo_states ≠ [] then some (emotionalTrendShares emo_states) else none
    average_response_time :=
      if rts ≠ [] then some (((rts.map (fun x => (x : ℚ))).sum) / (rts.length : ℚ))
      else none
    average_message_length :=
      if lens ≠ [] then some (((lens.map (fun x => (x : ℚ))).sum) / (lens.length : ℚ))
      else none
    engagement_trend := engagementTrend interactions
    technique_usage :=
      if techniques ≠ [] then some (countOccurrences techniques) else none
    technique_effectiveness :=
      if techniques ≠ [] then
        if emo_states ≠ [] ∧ emo_states.length = techniques.length then
          some (addEffectivenessPercentages (techniqueEffectivenessRaw techniques emo_states))
        else none
      else none }

/-- SessionManager.generate_session_summary (lines 176-218); the numeric
minute count is printed as a Nat where Python prints a float. -/
def generate_session_summary (s : SessionData) (now : Nat) : String :=
  let interaction_count := s.interactions.length
  let duration_minutes := (now - s.start_time) / 60
  let dominant_emotions :=
    if s.emotional_states ≠ [] then
      ((sortByCountDesc (countOccurrences s.emotional_states)).take 3).map Prod.fst
    else []
  let base := "Session lasted " ++ toString duration_minutes ++ " minutes with "
    ++ toString interaction_count ++ " interactions. "
  let withEmotions :=
    if dominant_emotions ≠ [] then
      base ++ "Dominant emotions: " ++ String.intercalate ", " dominant_emotions ++ ". "
    else base
  match s.condition_classifications.getLast? with
  | some latest => withEmotions ++ "Psychological assessment indicates " ++ latest ++ ". "
  | none => withEmotions

/-- A document in the sessions collection: Session.to_dict of
data/models.py (lines 185-202). -/
structure StoredSession where
  patient_id : Nat
  session_id : String
  user_id : Option Nat
  start_time : Nat
  end_time : Option Nat
  interactions : List Interaction
  summary : Option String
  metrics : Option Metrics
  condition_classification : Option String
  language : String
  deriving DecidableEq

/-- Result of SessionManager.end_session: the sessions collection after
the insert, the mutated session dict, and the returned id string (modelled
as the index of the inserted document, fresh on every insert). -/
structure EndSessionResult where
  sessionsDb : List StoredSession
  session : SessionData
  ref : Nat
  deriving DecidableEq

/-- SessionManager.end_session (src/core/session_manager.py lines 63-93):
set end_time to now, generate and store the summary, build a Session
object (whose session_id defaults to str(start_time) because end_session
passes none, and whose metrics are freshly computed), and insert_one it.
There is no closed-session check: every call inserts a new document and
returns a fresh id. -/
def end_session (db : List StoredSession) (s : SessionData) (now : Nat) :
    EndSessionResult :=
  let s1 := { s with end_time := some now }
  let summary := generate_session_summary s1 now
  let s2 := { s1 with summary := some summary }
  let doc : StoredSession :=
    { patient_id := s2.patient_id
      session_id := toString s2.start_time
      user_id := none
      start_time := s2.start_time
      end_time := some now
      interactions := s2.interactions
      summary := some summary
      metrics := some (calculate_session_metrics s2 now)
      condition_classification := none
      language := "en" }
  { sessionsDb := db ++ [doc], session := s2, ref := db.length }

/-- The checkpoint document built by bot/handlers.py message_handler
(lines 456-466): a Session object carrying the live ledger, an end_time of
now, the last condition classification if any, and default summary and
metrics. -/
def checkpoint_doc (s : SessionData) (user_id now : Nat) (lang : String) :
    StoredSession :=
  { patient_id := s.patient_id
    session_id := s.session_id
    user_id := some user_id
    start_time := s.start_time
    end_time := some now
    interactions := s.interactions
    summary := none
    metrics := none
    condition_classification := s.condition_classifications.getLast?
    language := lang }

/-- The periodic checkpoint block of message_handler (lines 454-467):
when the ledger length after the append is a multiple of 5, insert_one a
snapshot document.  The write is a plain insert, not an upsert: nothing is
keyed on session_id and nothing is replaced. -/
def periodic_checkpoint (db : List StoredSession) (s : SessionData)
    (user_id now : Nat) (lang : String) : List StoredSession :=
  if s.interactions.length % 5 = 0 then db ++ [checkpoint_doc s user_id now lang]
  else db

/-- Number of stored documents carrying a given session_id. -/
def docsForSession (db : List StoredSession) (sid : String) : Nat :=
  (db.filter (fun d => d.session_id == sid)).length

/-- Minimal patient record as read by message_handler. -/
structure PatientRec where
  name : String
  condition : String
  language : String
  deriving DecidableEq

/-- Python runtime errors relevant to the handler model. -/
inductive PyError where
  | nameError (n : String)
  deriving DecidableEq

/-- Where an invocation of message_handler ends up. -/
inductive MessageOutcome where
  | endSessionPath
  | restart
  | raised (e : PyError)
  deriving DecidableEq

/-- Session-end trigger phrases (bot/handlers.py line 388). -/
def end_triggers : List String :=
  ["that\x27s it", "بس كده", "انتهيت", "finished"]

/-- The trigger test of line 389: any trigger is a substring of the
lowered message text. -/
def containsTrigger (text : String) : Bool :=
  end_triggers.any (fun t => isSubstr t (lowerStr text))

/-- bot/handlers.py message_handler (lines 373-485) for a free-text
message in the CONVERSATION state.  Control flow of the source: an
end-trigger message is routed to the report-and-end path (line 390); a
user without a patient record is routed back to registration (line 396);
otherwise the handler analyzes emotions and generates a reply (external
calls, no session mutation) and then, at line 426, evaluates the local
name use_letting_go, which is never assigned anywhere in the function or
module, so Python raises NameError there.  The append at line 447 and the
checkpoint at lines 454-467 are beyond that point, so the session is
returned unchanged when the error propagates. -/
def message_handler (patient : Option PatientRec) (session : SessionData)
    (message_text : String) : MessageOutcome × SessionData :=
  if containsTrigger message_text then (MessageOutcome.endSessionPath, session)
  else
    match patient with
    | none => (MessageOutcome.restart, session)
    | some _ => (MessageOutcome.raised (PyError.nameError "use_letting_go"), session)

/-- A fixed concrete interaction used by the concrete counterexamples. -/
def sampleInteraction (t : Nat) : Interaction :=
  { timestamp := t
    user_message := "hello"
    bot_response := "hi there"
    emotion_analysis := { primary_emotion := some "sadness" }
    metadata := { session_id := some "100", user_id := some 1, technique := none } }

/-- A session holding exactly five interactions, as after the fifth
append. -/
def sampleSession5 : SessionData :=
  { patient_id := 1
    start_time := 100
    session_id := "100"
    interactions :=
      [sampleInteraction 101, sampleInteraction 102, sampleInteraction 103,
       sampleInteraction 104, sampleInteraction 105]
    condition_classifications := []
    emotional_states := ["sadness", "sadness", "sadness", "sadness", "sadness"]
    techniques_used := []
    end_time := none
    summary := none }

/-- A session that has already been closed (end_time set). -/
def closedSession : SessionData :=
  { patient_id := 2
    start_time := 10
    session_id := "10"
    interactions := []
    condition_classifications := []
    emotional_states := []
    techniques_used := []
    end_time := some 50
    summary := some "Session lasted 0 minutes with 0 interactions. " }

/-- The Scenario B data of the spec mapped onto the session metadata lists
read by calculate_session_metrics: three interactions, the third using
letting_go, with the emotion tag moving from anxiety to happy at the third
interaction. -/
def scenarioBSession : SessionData :=
  { patient_id := 3
    start_time := 0
    session_id := "0"
    interactions := [sampleInteraction 1, sampleInteraction 2, sampleInteraction 3]
    condition_classifications := []
    emotional_states := ["anxiety", "anxiety", "happy"]
    techniques_used := ["standard", "standard", "letting_go"]
    end_time := none
    summary := none }

/-- A session with a single interaction, technique and emotional state:
one data point for the effectiveness metric. -/
def singlePointSession : SessionData :=
  { patient_id := 4
    start_time := 0
    session_id := "0"
    interactions := [sampleInteraction 1]
    condition_classifications := []
    emotional_states := ["anxiety"]
    techniques_used := ["letting_go"]
    end_time := none
    summary := none }

/-- An interaction whose metadata records the letting_go technique, of the
shape track_progress counts. -/
def sampleLettingGoInteraction : Interaction :=
  { timestamp := 1
    user_message := "hello"
    bot_response := "hi there"
    emotion_analysis := { primary_emotion := some "sadness" }
    metadata := { session_id := none, user_id := none, technique := some "letting_go" } }

/-- A registered patient record, for the message_handler witnesses. -/
def samplePatient : PatientRec :=
  { name := "A", condition := "depression", language := "en" }

/-! Helper lemmas about the embedded operations. -/

theorem maybe_classify_interactions (s : SessionData)
    (model : List String → List EmotionAnalysis → Option String) :
    (maybe_classify s model).interactions = s.interactions := by
  unfold maybe_classify
  split
  · rcases classify_psychological_condition s model with _ | c <;> simp
  · rfl

theorem maybe_classify_end_time (s : SessionData)
    (model : List String → List EmotionAnalysis → Option String) :
    (maybe_classify s model).end_time = s.end_time := by
  unfold maybe_classify
  split
  · rcases classify_psychological_condition s model with _ | c <;> simp
  · rfl

theorem append_interaction_interactions (s : SessionData) (um br : String)
    (ea : Option EmotionAnalysis) (analyzer : String → EmotionAnalysis) (now : Nat) :
    (append_interaction s um br ea analyzer now).interactions
      = s.interactions ++
        [{ timestamp := now
           user_message := um
           bot_response := br
           emotion_analysis := (match ea with | some x => x | none => analyzer um)
           metadata := { session_id := some s.session_id, user_id := some s.patient_id,
                         technique := none } }] := by
  unfold append_interaction
  cases ea <;> dsimp only <;> split <;> rfl

theorem append_interaction_classifications (s : SessionData) (um br : String)
    (ea : Option EmotionAnalysis) (analyzer : String → EmotionAnalysis) (now : Nat) :
    (append_interaction s um br ea analyzer now).condition_classifications
      = s.condition_classifications := by
  unfold append_interaction
  cases ea <;> dsimp only <;> split <;> rfl

theorem append_interaction_end_time (s : SessionData) (um br : String)
    (ea : Option EmotionAnalysis) (analyzer : String → EmotionAnalysis) (now : Nat) :
    (append_interaction s um br ea analyzer now).end_time = s.end_time := by
  unfold append_interaction
  cases ea <;> dsimp only <;> split <;> rfl

theorem append_interaction_length (s : SessionData) (um br : String)
    (ea : Option EmotionAnalysis) (analyzer : String → EmotionAnalysis) (now : Nat) :
    (append_interaction s um br ea analyzer now).interactions.length
      = s.interactions.length + 1 := by
  rw [append_interaction_interactions]
  simp

/-! Claim theorems. -/

/-- C1 counterexample: patient 7 already has an open session (end_time
none), yet the session-open operation of the code succeeds and installs a
second, different open session; the spec-side definition demands
ConflictError at the same input.  start_session has no failure path at
all. -/
theorem start_session_ignores_open_session_cex :
    (start_session 7 0).end_time = none
    ∧ start_handler_open (some (start_session 7 0)) 7 1 = start_session 7 1
    ∧ (start_session 7 1).end_time = none
    ∧ (start_session 7 1).interactions = []
    ∧ start_session 7 1 ≠ start_session 7 0
    ∧ open_per_spec true 7 1 = OpenResult.conflictError := by
  refine ⟨rfl, rfl, rfl, rfl, by decide, rfl⟩

/-- C1 amended: start_session never fails and never checks for an open
session: for every patient and time it unconditionally creates a fresh
session with an empty ledger and empty classification list and an unset
end_time, and the start handler installs it as the active session
regardless of what session was active before. -/
theorem start_session_always_opens_fresh (patient_id now : Nat)
    (current : Option SessionData) :
    (start_session patient_id now).interactions = []
    ∧ (start_session patient_id now).condition_classifications = []
    ∧ (start_session patient_id now).end_time = none
    ∧ start_handler_open current patient_id now = start_session patient_id now :=
  ⟨rfl, rfl, rfl, rfl⟩

/-- C2 counterexample: closedSession is closed (end_time set), yet
add_interaction does not fail and grows the ledger from 0 to 1 entries,
contradicting the claim that appending to a closed session fails with
InvalidStateError and leaves the ledger length unchanged. -/
theorem add_interaction_on_closed_session_appends_cex :
    closedSession.end_time = some 50
    ∧ (add_interaction closedSession "m" "r" (some { primary_emotion := some "joy" })
        (fun _ => { primary_emotion := none }) (fun _ _ => none) 60).interactions.length
      = closedSession.interactions.length + 1
    ∧ (add_interaction closedSession "m" "r" (some { primary_emotion := some "joy" })
        (fun _ => { primary_emotion := none }) (fun _ _ => none) 60).interactions.length
      ≠ closedSession.interactions.length := by
  refine ⟨rfl, by decide, by decide⟩

/-- C2 amended: add_interaction never inspects end_time and never fails:
for every session, closed or open, it appends exactly one interaction
(with server-assigned timestamp, the resolved emotion analysis, and a
metadata dict holding session_id and user_id) to the end of the ledger,
and leaves end_time untouched. -/
theorem add_interaction_always_appends (s : SessionData) (um br : String)
    (ea : Option EmotionAnalysis) (analyzer : String → EmotionAnalysis)
    (model : List String → List EmotionAnalysis → Option String) (now : Nat) :
    (add_interaction s um br ea analyzer model now).interactions
      = s.interactions ++
        [{ timestamp := now
           user_message := um
           bot_response := br
           emotion_analysis := (match ea with | some x => x | none => analyzer um)
           metadata := { session_id := some s.session_id, user_id := some s.patient_id,
                         technique := none } }]
    ∧ (add_interaction s um br ea analyzer model now).interactions.length
      = s.interactions.length + 1
    ∧ (add_interaction s um br ea analyzer model now).end_time = s.end_time := by
  refine ⟨?_, ?_, ?_⟩
  · rw [add_interaction, maybe_classify_interactions, append_interaction_interactions]
  · rw [add_interaction, maybe_classify_interactions, append_interaction_length]
  · rw [add_interaction, maybe_classify_end_time, append_interaction_end_time]

/-- C3 counterexample: closing the same session twice inserts two distinct
documents into the sessions collection and returns two different
references (0 then 1), and the second close overwrites end_time from 200
to 300: end_session is not idempotent. -/
theorem end_session_not_idempotent_cex :
    (end_session [] (start_session 1 100) 200).ref = 0
    ∧ (end_session (end_session [] (start_session 1 100) 200).sessionsDb
        (end_session [] (start_session 1 100) 200).session 300).ref = 1
    ∧ (end_session (end_session [] (start_session 1 100) 200).sessionsDb
        (end_session [] (start_session 1 100) 200).session 300).sessionsDb.length = 2
    ∧ (end_session [] (start_session 1 100) 200).session.end_time = some 200
    ∧ (end_session (end_session [] (start_session 1 100) 200).sessionsDb
        (end_session [] (start_session 1 100) 200).session 300).session.end_time = some 300 := by
  exact ⟨rfl, rfl, rfl, rfl, rfl⟩

/-- C3 amended: end_session is not idempotent: every call sets end_time to
the call time, recomputes the summary, inserts one new document into the
sessions collection, and returns a fresh reference, so a second close
returns a different reference from the first. -/
theorem end_session_inserts_and_returns_fresh_ref (db : List StoredSession)
    (s : SessionData) (now later : Nat) :
    (end_session db s now).ref = db.length
    ∧ (end_session db s now).sessionsDb.length = db.length + 1
    ∧ (end_session db s now).session.end_time = some now
    ∧ (end_session (end_session db s now).sessionsDb (end_session db s now).session later).ref
      ≠ (end_session db s now).ref := by
  refine ⟨rfl, by simp [end_session], rfl, ?_⟩
  simp [end_session]

/-- C4 counterexample: sampleSession5 has 5 interactions, so a checkpoint
is due; delivering the checkpoint twice (as at-least-once delivery may)
leaves two stored documents with the same session_id, because the write is
a plain insert rather than an idempotent upsert keyed by session_id. -/
theorem periodic_checkpoint_duplicates_cex :
    sampleSession5.interactions.length % 5 = 0
    ∧ docsForSession
        (periodic_checkpoint (periodic_checkpoint [] sampleSession5 1 200 "en")
          sampleSession5 1 201 "en") sampleSession5.session_id = 2
    ∧ ¬ docsForSession
        (periodic_checkpoint (periodic_checkpoint [] sampleSession5 1 200 "en")
          sampleSession5 1 201 "en") sampleSession5.session_id ≤ 1 := by
  refine ⟨rfl, by decide, by decide⟩

/-- C4 amended: the periodic checkpoint triggers exactly when the
post-append ledger length is a multiple of 5, and each trigger (and each
close) performs a plain insert that grows the sessions collection by one
document, so repeated or redelivered checkpoint writes accumulate
duplicate documents for the same session_id instead of upserting. -/
theorem periodic_checkpoint_insert_semantics (db : List StoredSession)
    (s : SessionData) (uid now : Nat) (lang : String) :
    (periodic_checkpoint db s uid now lang).length
      = (if s.interactions.length % 5 = 0 then db.length + 1 else db.length)
    ∧ ((periodic_checkpoint db s uid now lang ≠ db) ↔ s.interactions.length % 5 = 0)
    ∧ (end_session db s now).sessionsDb.length = db.length + 1 := by
  refine ⟨?_, ⟨?_, ?_⟩, by simp [end_session]⟩
  · unfold periodic_checkpoint
    split <;> simp
  · intro h
    by_contra hq
    exact h (by rw [periodic_checkpoint, if_neg hq])
  · intro h he
    have hl := congrArg List.length he
    rw [periodic_checkpoint, if_pos h] at hl
    simp at hl

/-- C5: the condition-classification cadence of add_interaction.  After
every append the classification list is extended if and only if the new
ledger length is at least 3 and divisible by 5 (the code condition, length
divisible by 5 on a nonempty post-append ledger, is exactly equivalent),
and the appended value, when the oracle yields one, is the classification
of the last five interactions: the context handed to the language model is
a suffix of the user-message list of length min 5 n. -/
theorem classification_cadence_and_context (s : SessionData) (um br : String)
    (ea : Option EmotionAnalysis) (analyzer : String → EmotionAnalysis)
    (model : List String → List EmotionAnalysis → Option String) (now : Nat) :
    (add_interaction s um br ea analyzer model now).condition_classifications
      = s.condition_classifications ++
        (if 3 ≤ s.interactions.length + 1 ∧ (s.interactions.length + 1) % 5 = 0 then
          (classify_psychological_condition
            (append_interaction s um br ea analyzer now) model).toList
         else [])
    ∧ (∀ l : List Interaction,
        recentUserMessages l <:+ l.map (fun i => i.user_message)
        ∧ (recentUserMessages l).length = min 5 l.length) := by
  constructor
  · rw [add_interaction]
    have hlen := append_interaction_length s um br ea analyzer now
    have hcc := append_interaction_classifications s um br ea analyzer now
    set t := append_interaction s um br ea analyzer now with ht
    by_cases h5 : t.interactions.length % 5 = 0
    · have h3 : 3 ≤ s.interactions.length + 1 := by
        have hd : 5 ∣ t.interactions.length := Nat.dvd_of_mod_eq_zero h5
        have hp : 0 < t.interactions.length := by omega
        have := Nat.le_of_dvd hp hd
        omega
      rw [if_pos ⟨h3, by omega⟩]
      rw [maybe_classify, if_pos h5]
      rcases classify_psychological_condition t model with _ | c
      · simpa using hcc
      · simpa using hcc
    · rw [if_neg (by omega)]
      rw [maybe_classify, if_neg h5]
      simpa using hcc
  · intro l
    have hrw : recentUserMessages l
        = (l.map (fun i => i.user_message)).drop (l.length - 5) := by
      rw [recentUserMessages, recentSlice]
      exact List.map_drop _ _ _
    constructor
    · rw [hrw]
      exact List.drop_suffix _ _
    · rw [hrw]
      simp
      omega

/-- C6: track_progress computes exactly min(100, 10 times the count of
interactions whose metadata records the letting_go technique); the result
is bounded by 100, monotonically non-decreasing in that count, and
saturates at 100 once the count reaches 10. -/
theorem track_progress_formula (p q : Nat) (l l2 : List Interaction)
    (h : lettingGoCount l ≤ lettingGoCount l2) :
    (track_progress p l).progress_percentage = min 100 (10 * lettingGoCount l)
    ∧ (track_progress p l).progress_percentage ≤ 100
    ∧ (track_progress p l).progress_percentage ≤ (track_progress q l2).progress_percentage
    ∧ (10 ≤ lettingGoCount l → (track_progress p l).progress_percentage = 100) := by
  unfold track_progress
  dsimp only
  refine ⟨by rw [Nat.mul_comm], ?_, ?_, ?_⟩ <;> omega

/-- C6 witness: one letting_go interaction against eleven. -/
theorem track_progress_formula_witness :
    lettingGoCount [sampleLettingGoInteraction]
      ≤ lettingGoCount (List.replicate 11 sampleLettingGoInteraction)
    ∧ (track_progress 0 [sampleLettingGoInteraction]).progress_percentage
      ≤ (track_progress 0 (List.replicate 11 sampleLettingGoInteraction)).progress_percentage :=
  ⟨by decide, (track_progress_formula 0 0 [sampleLettingGoInteraction]
      (List.replicate 11 sampleLettingGoInteraction) (by decide)).2.2.1⟩

theorem lookup_updateEff (acc : List (String × EffStats)) (t : String) (b : Bool)
    (k : String) (h : (List.lookup k (updateEff acc t b)).isSome = true) :
    k = t ∨ (List.lookup k acc).isSome = true := by
  induction acc with
  | nil =>
    refine Or.inl ?_
    by_contra hne
    have hbeq : (k == t) = false := beq_eq_false_iff_ne.mpr hne
    simp [updateEff, List.lookup, hbeq] at h
  | cons p rest ih =>
    obtain ⟨pk, pst⟩ := p
    by_cases hpt : (pk == t) = true
    · rw [updateEff, if_pos hpt] at h
      by_cases hkp : (k == pk) = true
      · exact Or.inl (by rw [eq_of_beq hkp]; exact eq_of_beq hpt)
      · have hkp' : (k == pk) = false := by simpa using hkp
        rw [List.lookup, hkp'] at h
        exact Or.inr (by rw [List.lookup, hkp']; exact h)
    · have hpt' : (pk == t) = false := by simpa using hpt
      rw [updateEff, if_neg (by simp [hpt'])] at h
      by_cases hkp : (k == pk) = true
      · exact Or.inr (by rw [List.lookup, hkp]; rfl)
      · have hkp' : (k == pk) = false := by simpa using hkp
        rw [List.lookup, hkp'] at h
        rcases ih h with hkt | hrest
        · exact Or.inl hkt
        · exact Or.inr (by rw [List.lookup, hkp']; exact hrest)

theorem lookup_effStep (ts es : List String) (acc : List (String × EffStats))
    (i : Nat) (k : String)
    (h : (List.lookup k (effStep ts es acc i)).isSome = true) :
    (List.lookup k acc).isSome = true ∨ ts[i-1]? = some k := by
  rw [effStep] at h
  rcases ht : ts[i-1]? with _ | technique
  · rw [ht] at h; exact Or.inl h
  · rcases hp : es[i-1]? with _ | prev
    · rw [ht, hp] at h; exact Or.inl h
    · rcases hc : es[i]? with _ | curr
      · rw [ht, hp, hc] at h; exact Or.inl h
      · rw [ht, hp, hc] at h
        dsimp only at h
        by_cases hne : prev ≠ "" ∧ curr ≠ ""
        · rw [if_pos hne] at h
          rcases lookup_updateEff acc technique _ k h with hkt | hacc
          · exact Or.inr (by rw [hkt])
          · exact Or.inl hacc
        · rw [if_neg hne] at h
          exact Or.inl h

theorem lookup_foldl_effStep (ts es : List String) (L : List Nat)
    (acc : List (String × EffStats)) (k : String)
    (h : (List.lookup k (L.foldl (effStep ts es) acc)).isSome = true) :
    (List.lookup k acc).isSome = true ∨ ∃ i ∈ L, ts[i-1]? = some k := by
  induction L generalizing acc with
  | nil => exact Or.inl h
  | cons j L ih =>
    rw [List.foldl_cons] at h
    rcases ih _ h with hstep | ⟨i, hi, hik⟩
    · rcases lookup_effStep ts es acc j k hstep with hacc | hjk
      · exact Or.inl hacc
      · exact Or.inr ⟨j, List.mem_cons_self _ _, hjk⟩
    · exact Or.inr ⟨i, List.mem_cons_of_mem _ hi, hik⟩

/-- C7 counterexample: Scenario B of the spec (three interactions, the
third using letting_go, emotion moving anxiety to happy at the third
interaction) gives letting_go no effectiveness entry at all, because the
loop attributes the transition from position 1 to position 2 to the
technique at position 1 (standard), and a technique used only at the last
position is never read; standard receives 1 improvement out of 2 (50
percent), not letting_go 100 percent. -/
theorem technique_effectiveness_scenarioB_cex :
    techniqueEffectivenessRaw scenarioBSession.techniques_used
      scenarioBSession.emotional_states
      = [("standard", { improved := 1, total := 2 })]
    ∧ List.lookup "letting_go"
        (techniqueEffectivenessRaw scenarioBSession.techniques_used
          scenarioBSession.emotional_states) = none
    ∧ ((calculate_session_metrics scenarioBSession 300).technique_effectiveness).map
        (List.lookup "letting_go") = some none
    ∧ (calculate_session_metrics scenarioBSession 300).technique_effectiveness
      = some (addEffectivenessPercentages [("standard", { improved := 1, total := 2 })])
    ∧ List.lookup "standard"
        (addEffectivenessPercentages [("standard", { improved := 1, total := 2 })])
      = some { improved := 1, total := 2, effectiveness_percentage := some 50 } := by
  have hraw : techniqueEffectivenessRaw scenarioBSession.techniques_used
      scenarioBSession.emotional_states = [("standard", { improved := 1, total := 2 })] := by
    decide
  refine ⟨hraw, by decide, by decide, ?_, ?_⟩
  · dsimp only [calculate_session_metrics]
    rw [if_pos (by decide), if_pos (by decide), hraw]
  · norm_num [addEffectivenessPercentages, List.lookup]

/-- C7 amended: the effectiveness metric attributes the emotion transition
at step i to the technique recorded at step i-1, so any technique with an
entry occurs before the last position of techniques_used (a technique used
only at the final interaction gets no entry); one data point yields an
empty mapping (not None); and the negative set actually used is sadness,
anger, fear, anxiety, frustration, guilt, shame, which contains
frustration, guilt and shame and omits disgust and stress. -/
theorem technique_effectiveness_attribution (ts es : List String) (t : String)
    (h : (List.lookup t (techniqueEffectivenessRaw ts es)).isSome = true) :
    t ∈ ts.dropLast
    ∧ (calculate_session_metrics singlePointSession 300).technique_effectiveness = some []
    ∧ ("frustration" ∈ negative_emotions ∧ "guilt" ∈ negative_emotions
       ∧ "shame" ∈ negative_emotions ∧ "disgust" ∉ negative_emotions
       ∧ "stress" ∉ negative_emotions) := by
  refine ⟨?_, by decide, by decide⟩
  rw [techniqueEffectivenessRaw] at h
  rcases lookup_foldl_effStep ts es _ [] t h with habs | ⟨i, hi, hik⟩
  · simp [List.lookup] at habs
  · rw [List.mem_range'_1] at hi
    have hlt : i - 1 < ts.length - 1 := by omega
    have hsome : (ts.take (ts.length - 1))[i-1]? = some t := by
      rw [List.getElem?_take_of_lt hlt]; exact hik
    rw [List.dropLast_eq_take]
    exact List.getElem?_mem hsome

/-- C7 witness: letting_go used at the first of three positions does get
an entry, and is indeed a member of the list with its last element
dropped. -/
theorem technique_effectiveness_attribution_witness :
    (List.lookup "letting_go"
      (techniqueEffectivenessRaw ["letting_go", "standard", "standard"]
        ["anxiety", "happy", "happy"])).isSome = true
    ∧ "letting_go" ∈ (["letting_go", "standard", "standard"] : List String).dropLast :=
  ⟨by decide, (technique_effectiveness_attribution
      ["letting_go", "standard", "standard"] ["anxiety", "happy", "happy"]
      "letting_go" (by decide)).1⟩

/-- C8 counterexample: two interactions with user messages of equal
length 5, so the first-half mean and second-half mean are exactly equal
(certainly within any 5 percent tolerance), yet the code reports
decreasing, not stable. -/
theorem engagement_trend_equal_means_cex :
    userMessageLengths [sampleInteraction 1, sampleInteraction 2] = [5, 5]
    ∧ engagementTrend [sampleInteraction 1, sampleInteraction 2] = some "decreasing"
    ∧ engagementTrend [sampleInteraction 1, sampleInteraction 2] ≠ some "stable" := by
  have h1 : userMessageLengths [sampleInteraction 1, sampleInteraction 2] = [5, 5] := by
    decide
  have h2 : engagementTrend [sampleInteraction 1, sampleInteraction 2]
      = some "decreasing" := by
    rw [engagementTrend, h1]
    norm_num
  exact ⟨h1, h2, by rw [h2]; decide⟩

/-- C8 amended: the engagement trend compares the mean user-message length
of the first half of the ledger against the second half and reports
increasing when the second mean strictly exceeds the first and decreasing
otherwise (including exact ties); there is no tolerance band and the value
stable is never produced; when either half is empty no trend is
reported. -/
theorem engagement_trend_never_stable (interactions : List Interaction) :
    engagementTrend interactions ≠ some "stable"
    ∧ (engagementTrend interactions = none
       ∨ engagementTrend interactions = some "increasing"
       ∨ engagementTrend interactions = some "decreasing") := by
  simp only [engagementTrend]
  constructor
  · split
    · split <;> simp
    · simp
  · split
    · split
      · right; left; rfl
      · right; right; rfl
    · left; rfl

/-- C9 counterexample: sampleSession5 is due for classification (5
interactions, divisible by 5 and at least 3), the language model call
fails (oracle none), and the classification is silently dropped: the
session is returned unchanged and no unclear entry is recorded,
contradicting the claim that failures are recovered by recording
unclear. -/
theorem classification_failure_dropped_cex :
    sampleSession5.interactions.length % 5 = 0
    ∧ 3 ≤ sampleSession5.interactions.length
    ∧ maybe_classify sampleSession5 (fun _ _ => none) = sampleSession5
    ∧ (maybe_classify sampleSession5 (fun _ _ => none)).condition_classifications = [] := by
  refine ⟨rfl, by decide, by decide, by decide⟩

/-- C9 amended: when the language model call fails or times out during
condition classification, the exception handler returns None and nothing
is appended: the classification is dropped, not recorded as unclear; the
session remains intact and the conversation continues (maybe_classify is
total and returns the session unchanged).  The unclear fallback is
recorded only when a response is actually received whose text does not
parse to a valid classification. -/
theorem classification_failure_behavior (s : SessionData) :
    maybe_classify s (fun _ _ => none) = s
    ∧ (maybe_classify sampleSession5
        (fun _ _ => some "Gibberish response")).condition_classifications = ["unclear"] := by
  constructor
  · by_cases h5 : s.interactions.length % 5 = 0
    · rw [maybe_classify, if_pos h5]
      have hc : classify_psychological_condition s (fun _ _ => none) = none := by
        rw [classify_psychological_condition]
        split <;> rfl
      rw [hc]
    · rw [maybe_classify, if_neg h5]
  · decide

/-- C10: for every registered patient and every free-text message without
an end trigger handled in the CONVERSATION state, message_handler reaches
line 426 where it evaluates the never-assigned name use_letting_go, so it
raises NameError and returns the session with its ledger unchanged: no
interaction is appended by that invocation. -/
theorem message_handler_raises_name_error (p : PatientRec) (s : SessionData)
    (text : String) (h : containsTrigger text = false) :
    message_handler (some p) s text
      = (MessageOutcome.raised (PyError.nameError "use_letting_go"), s)
    ∧ (message_handler (some p) s text).2.interactions = s.interactions := by
  rw [message_handler]
  simp [h]

/-- C10 witness: the message hello contains no end trigger, and the
handler raises NameError on it, leaving the session untouched. -/
theorem message_handler_raises_name_error_witness :
    containsTrigger "hello" = false
    ∧ message_handler (some samplePatient) sampleSession5 "hello"
      = (MessageOutcome.raised (PyError.nameError "use_letting_go"), sampleSession5) :=
  ⟨by decide, (message_handler_raises_name_error samplePatient sampleSession5 "hello"
      (by decide)).1⟩
